import Mathlib

/-!
Verification of the IB_MCP gateway-forwarder routers.

The repository is a FastAPI pass-through gateway: every route handler builds
an outbound request (query parameters and/or JSON body) from its validated
inputs, issues the call with `httpx`, and relays the upstream JSON payload or
one of two structured error envelopes.  This file shallowly embeds

  * the JSON values the handlers construct and return,
  * the outbound-request construction of each router's handlers
    (`src/mcp_server/routers/*.py`), and
  * the shared try/except relay block that every handler repeats verbatim
    (`response.raise_for_status()` / `except httpx.HTTPStatusError` /
    `except httpx.RequestError`),

and proves the behavioural claims about them.
-/

namespace IBMCP

/-- JSON values, as constructed by the handlers (via Python dict/list
literals and pydantic `model_dump`). -/
inductive Json where
  | null : Json
  | bool : Bool → Json
  | num : Rat → Json
  | str : String → Json
  | arr : List Json → Json
  | obj : List (String × Json) → Json

/-- The keys of a JSON object (empty for non-objects). -/
def Json.keys : Json → List String
  | .obj fs => fs.map Prod.fst
  | _ => []

/-- Field lookup in a JSON object. -/
def Json.lookupField (j : Json) (k : String) : Option Json :=
  match j with
  | .obj fs => fs.lookup k
  | _ => none

/-- A value placed in the outbound `params` dict.  Python puts strings,
ints, floats and booleans there; httpx serializes them later. -/
inductive QVal where
  | s : String → QVal
  | i : Int → QVal
  | f : Rat → QVal
  | b : Bool → QVal
  deriving Repr, DecidableEq

/-- HTTP method of an outbound call. -/
inductive Method where
  | get | post | put | delete
  deriving Repr, DecidableEq

/-- One outbound httpx request: method, path suffix appended to `BASE_URL`,
query-parameter dict (in insertion order), optional JSON body, timeout. -/
structure OutboundRequest where
  method : Method
  path : String
  query : List (String × QVal)
  body : Option Json
  timeout : Nat

/-- Outcome of one outbound httpx call, seen from the handler:
either a response arrived (with its status code, raw body text, and the
body's JSON parse when the text is valid JSON — `response.text` and
`response.json()`), or the transport failed before any response
(`httpx.RequestError`, carrying its message `str(exc)`). -/
inductive CallResult where
  | response : Nat → String → Option Json → CallResult
  | transportError : String → CallResult

/-- What a route handler produces: a returned JSON value, or an exception
escaping the handler uncaught. -/
inductive HandlerResult where
  | value : Json → HandlerResult
  | raised : String → HandlerResult

/-- The envelope every handler returns from `except httpx.HTTPStatusError`:
`{"error": "IBKR API Error", "status_code": exc.response.status_code,
"detail": exc.response.text}`. -/
def apiErrorEnvelope (status : Nat) (text : String) : Json :=
  .obj [("error", .str "IBKR API Error"),
        ("status_code", .num status),
        ("detail", .str text)]

/-- The envelope every handler returns from `except httpx.RequestError`:
`{"error": "Request Error", "detail": str(exc)}`. -/
def requestErrorEnvelope (msg : String) : Json :=
  .obj [("error", .str "Request Error"), ("detail", .str msg)]

/-- `response.is_success`, the predicate `raise_for_status` checks. -/
def is2xx (status : Nat) : Bool := 200 ≤ status && status < 300

/-- The relay block every handler repeats verbatim:

    response.raise_for_status()
    return response.json()
  except httpx.HTTPStatusError as exc:
    return {"error": "IBKR API Error", "status_code": ..., "detail": ...}
  except httpx.RequestError as exc:
    return {"error": "Request Error", "detail": str(exc)}

A non-2xx status makes `raise_for_status` raise `HTTPStatusError`, caught by
the first clause.  A transport failure raises `RequestError`, caught by the
second.  On a 2xx response `response.json()` is returned; if the body is not
valid JSON it raises `json.decoder.JSONDecodeError`, which neither except
clause matches, so it escapes the handler. -/
def forwardCall : CallResult → HandlerResult
  | .response status text jsonBody =>
      if is2xx status then
        match jsonBody with
        | some j => .value j
        | none => .raised "json.decoder.JSONDecodeError"
      else .value (apiErrorEnvelope status text)
  | .transportError msg => .value (requestErrorEnvelope msg)

/-- Python's `str(b).lower()` for a `bool`. -/
def pyBoolStr (b : Bool) : String := if b then "true" else "false"

/-- Python's `str(x).lower()` for an `Optional[bool]` (`str(None)` is
`"None"`). -/
def pyOptBoolStr : Option Bool → String
  | some b => pyBoolStr b
  | none => "none"

/-- The idiom `if x: params[k] = x` for an `Optional[str]` value `x`:
included only when present and non-empty (Python truthiness). -/
def optStrParam (k : String) : Option String → List (String × QVal)
  | some s => if s = "" then [] else [(k, .s s)]
  | none => []

/-- The idiom `if x: params[k] = x` for an `Optional[float]` value `x`:
included only when present and non-zero (Python truthiness). -/
def optFloatParam (k : String) : Option Rat → List (String × QVal)
  | some q => if q = 0 then [] else [(k, .f q)]
  | none => []

/-! ## contract.py: outbound query construction -/

/-- `get_contract_algos` params (all three optional, default None). -/
def get_contract_algos_params (algos addDescription addParams : Option String) :
    List (String × QVal) :=
  optStrParam "algos" algos
    ++ optStrParam "addDescription" addDescription
    ++ optStrParam "addParams" addParams

/-- `get_contract_info_and_rules` params (`isBuy` required). -/
def get_contract_info_and_rules_params (isBuy : Bool) : List (String × QVal) :=
  [("isBuy", .b isBuy)]

/-- `get_bond_filters` params: a constant `"symbol": "BOND"` entry is placed
ahead of the caller's `issuerId`. -/
def get_bond_filters_params (issuerId : String) : List (String × QVal) :=
  [("symbol", .s "BOND"), ("issuerId", .s issuerId)]

/-- The outbound request of `get_bond_filters`. -/
def get_bond_filters_request (issuerId : String) : OutboundRequest :=
  { method := .get, path := "/iserver/secdef/bond-filters",
    query := get_bond_filters_params issuerId, body := none, timeout := 10 }

/-- `search_currency_pairs` params. -/
def search_currency_pairs_params (symbol : String) : List (String × QVal) :=
  [("symbol", .s symbol)]

/-- `get_secdef_info` params: `conid`/`secType` required; `month`,
`exchange`, `right` optional strings and `strike` an optional float, each
guarded by `if x:`. -/
def get_secdef_info_params (conid secType : String)
    (month exchange : Option String) (strike : Option Rat)
    (right : Option String) : List (String × QVal) :=
  [("conid", .s conid), ("secType", .s secType)]
    ++ optStrParam "month" month
    ++ optStrParam "exchange" exchange
    ++ optFloatParam "strike" strike
    ++ optStrParam "right" right

/-- `search_contract_by_symbol_or_name` params.  `name` is declared
`Optional[bool] = Query(False)`: an absent query parameter arrives as
`False`, so the guard `if name is not None` admits it and
`str(name).lower()` is sent. -/
def search_contract_by_symbol_or_name_params (symbol : String)
    (name : Option Bool) (secType : Option String) : List (String × QVal) :=
  [("symbol", .s symbol)]
    ++ (match name with
        | some b => [("name", .s (pyBoolStr b))]
        | none => [])
    ++ optStrParam "secType" secType

/-- `get_strikes` params (`exchange` optional). -/
def get_strikes_params (conid : Int) (secType month : String)
    (exchange : Option String) : List (String × QVal) :=
  [("conid", .i conid), ("secType", .s secType), ("month", .s month)]
    ++ optStrParam "exchange" exchange

/-- `get_trsrv_futures_by_symbol` params. -/
def get_trsrv_futures_by_symbol_params (symbols : String) : List (String × QVal) :=
  [("symbols", .s symbols)]

/-- `get_secdef_by_conids` params. -/
def get_secdef_by_conids_params (conids : String) : List (String × QVal) :=
  [("conids", .s conids)]

/-- `get_stocks_by_symbol` params. -/
def get_stocks_by_symbol_params (symbols : String) : List (String × QVal) :=
  [("symbols", .s symbols)]

/-- `get_trading_schedule` params (`exchange`, `exchangeFilter` optional). -/
def get_trading_schedule_params (assetClass symbol : String)
    (exchange exchangeFilter : Option String) : List (String × QVal) :=
  [("assetClass", .s assetClass), ("symbol", .s symbol)]
    ++ optStrParam "exchange" exchange
    ++ optStrParam "exchangeFilter" exchangeFilter

/-! ## market_data.py: outbound construction and the two-call routes -/

/-- `get_marketdata_snapshot` params (both required). -/
def get_marketdata_snapshot_params (conids fields : String) : List (String × QVal) :=
  [("conids", .s conids), ("fields", .s fields)]

/-- The (single) outbound request shape of `get_marketdata_snapshot`; the
handler issues it twice with identical parameters. -/
def snapshotRequest (conids fields : String) : OutboundRequest :=
  { method := .get, path := "/iserver/marketdata/snapshot",
    query := get_marketdata_snapshot_params conids fields,
    body := none, timeout := 10 }

/-- Result of `get_marketdata_snapshot` given the outcomes the upstream
would produce for the first and second call.  Both calls sit in one `try`:
the first call's response is never inspected (no `raise_for_status`, no
`.json()`), so any received response falls through to the second call; but
if the first call raises `httpx.RequestError`, the `except` clause catches
it and returns the request-error envelope — the second call never runs. -/
def get_marketdata_snapshot_result (first second : CallResult) : HandlerResult :=
  match first with
  | .transportError msg => .value (requestErrorEnvelope msg)
  | .response _ _ _ => forwardCall second

/-- The sequence of requests `get_marketdata_snapshot` actually issues,
given the first call's outcome: two identical requests when the first call
yields a response, only the first request when it raises a transport
error. -/
def get_marketdata_snapshot_requests (conids fields : String)
    (first : CallResult) : List OutboundRequest :=
  match first with
  | .transportError _ => [snapshotRequest conids fields]
  | .response _ _ _ => [snapshotRequest conids fields, snapshotRequest conids fields]

/-- `get_md_snapshot` params: `conids` required, `fields` optional guarded
by `if fields:`. -/
def get_md_snapshot_params (conids : String) (fields : Option String) :
    List (String × QVal) :=
  [("conids", .s conids)] ++ optStrParam "fields" fields

/-- `get_marketdata_history` params.  FastAPI defaults for absent query
parameters: `bar = None`, `exchange = None`, `outsideRth = False`,
`barType = "trades"`.  `outsideRth` is written unconditionally as
`str(outsideRth).lower()`; `bar`, `exchange`, `barType` are guarded by
`if x:`. -/
def get_marketdata_history_params (conid period : String)
    (bar exchange : Option String) (outsideRth : Option Bool)
    (barType : Option String) : List (String × QVal) :=
  [("conid", .s conid), ("period", .s period),
   ("outsideRth", .s (pyOptBoolStr outsideRth))]
    ++ optStrParam "bar" bar
    ++ optStrParam "exchange" exchange
    ++ optStrParam "barType" barType

/-- `get_hmds_history` params.  FastAPI defaults for absent query
parameters: `bar = None`, `outsideRth = False`, `barType = "trades"`,
`startTime = None`. -/
def get_hmds_history_params (conid period : String) (bar : Option String)
    (outsideRth : Option Bool) (barType startTime : Option String) :
    List (String × QVal) :=
  [("conid", .s conid), ("period", .s period),
   ("outsideRth", .s (pyOptBoolStr outsideRth))]
    ++ optStrParam "bar" bar
    ++ optStrParam "barType" barType
    ++ optStrParam "startTime" startTime

/-- The fixed authentication-initialization request `get_hmds_history`
issues first. -/
def hmdsInitRequest : OutboundRequest :=
  { method := .get, path := "/hmds/auth/init", query := [], body := none,
    timeout := 10 }

/-- The main history request of `get_hmds_history`. -/
def hmdsHistoryRequest (conid period : String) (bar : Option String)
    (outsideRth : Option Bool) (barType startTime : Option String) :
    OutboundRequest :=
  { method := .get, path := "/hmds/history",
    query := get_hmds_history_params conid period bar outsideRth barType startTime,
    body := none, timeout := 30 }

/-- Result of `get_hmds_history` given the outcomes of the init call and
the main call.  Both sit in one `try`: the init call's response is never
inspected, so any received response (including an error status) falls
through to the main call; but if the init call raises
`httpx.RequestError`, the `except` clause catches it and returns the
request-error envelope — the main call never runs. -/
def get_hmds_history_result (initCall mainCall : CallResult) : HandlerResult :=
  match initCall with
  | .transportError msg => .value (requestErrorEnvelope msg)
  | .response _ _ _ => forwardCall mainCall

/-- The requests `get_hmds_history` actually issues, given the init call's
outcome. -/
def get_hmds_history_requests (conid period : String) (bar : Option String)
    (outsideRth : Option Bool) (barType startTime : Option String)
    (initCall : CallResult) : List OutboundRequest :=
  match initCall with
  | .transportError _ => [hmdsInitRequest]
  | .response _ _ _ =>
      [hmdsInitRequest,
       hmdsHistoryRequest conid period bar outsideRth barType startTime]

/-! ## portfolio.py and fyis_and_notifications.py: outbound queries -/

/-- `get_positions` params: all four query parameters optional, default
None, each guarded by `if x:`. -/
def get_positions_params (model sort direction period : Option String) :
    List (String × QVal) :=
  optStrParam "model" model
    ++ optStrParam "sort" sort
    ++ optStrParam "direction" direction
    ++ optStrParam "period" period

/-- `get_notifications` params: `max` (alias of `max_count`, default 10) is
always sent; `exclude` and `include` are guarded by `if x:`. -/
def get_notifications_params (exclude includeIds : Option String)
    (max_count : Int) : List (String × QVal) :=
  [("max", .i max_count)]
    ++ optStrParam "exclude" exclude
    ++ optStrParam "include" includeIds

/-! ## orders.py: pydantic models and `model_dump(exclude_none=True)` -/

/-- One field of a pydantic dump under `exclude_none=True`: present exactly
when the field's value is not `None`. -/
def optDumpField {α : Type} (k : String) (toJ : α → Json) :
    Option α → List (String × Json)
  | none => []
  | some v => [(k, toJ v)]

/-- `OrderModel` (orders.py).  Fields declared `Optional[...] = Field(None)`
are modelled as `Option` with default `none`; `outsideRTH` and
`useAdaptive` are declared `Optional[bool] = Field(False)`, so an order
that does not set them carries the value `False`, not `None`. -/
structure OrderModel where
  acctId : Option String := none
  conid : Option Int := none
  conidex : Option String := none
  secType : Option String := none
  cOID : Option String := none
  parentId : Option String := none
  orderType : String
  listingExchange : Option String := none
  outsideRTH : Option Bool := some false
  price : Option Rat := none
  auxPrice : Option Rat := none
  side : String
  ticker : Option String := none
  tif : String
  quantity : Rat
  useAdaptive : Option Bool := some false
  strategy : Option String := none
  strategyParameters : Option (List (String × Json)) := none

/-- `OrderModel.model_dump(exclude_none=True)`: fields in declaration
order, each `None`-valued field excluded. -/
def OrderModel.dumpExcludeNone (o : OrderModel) : List (String × Json) :=
  optDumpField "acctId" Json.str o.acctId
    ++ optDumpField "conid" (fun n : Int => Json.num (n : Rat)) o.conid
    ++ optDumpField "conidex" Json.str o.conidex
    ++ optDumpField "secType" Json.str o.secType
    ++ optDumpField "cOID" Json.str o.cOID
    ++ optDumpField "parentId" Json.str o.parentId
    ++ [("orderType", Json.str o.orderType)]
    ++ optDumpField "listingExchange" Json.str o.listingExchange
    ++ optDumpField "outsideRTH" Json.bool o.outsideRTH
    ++ optDumpField "price" Json.num o.price
    ++ optDumpField "auxPrice" Json.num o.auxPrice
    ++ [("side", Json.str o.side)]
    ++ optDumpField "ticker" Json.str o.ticker
    ++ [("tif", Json.str o.tif), ("quantity", Json.num o.quantity)]
    ++ optDumpField "useAdaptive" Json.bool o.useAdaptive
    ++ optDumpField "strategy" Json.str o.strategy
    ++ optDumpField "strategyParameters" Json.obj o.strategyParameters

/-- `OrdersRequest` (orders.py): a list of orders. -/
structure OrdersRequest where
  orders : List OrderModel

/-- `OrdersRequest.model_dump(exclude_none=True)`; `exclude_none`
propagates into the nested order models. -/
def OrdersRequest.dumpExcludeNone (r : OrdersRequest) : Json :=
  .obj [("orders", .arr (r.orders.map (fun o => .obj o.dumpExcludeNone)))]

/-- The outbound request of `place_order`. -/
def place_order_request (accountId : String) (body : OrdersRequest) :
    OutboundRequest :=
  { method := .post, path := "/iserver/account/" ++ accountId ++ "/orders",
    query := [], body := some body.dumpExcludeNone, timeout := 10 }

/-- The outbound request of `modify_order` (same
`model_dump(exclude_none=True)` on a single `OrderModel`). -/
def modify_order_request (accountId orderId : String) (body : OrderModel) :
    OutboundRequest :=
  { method := .post,
    path := "/iserver/account/" ++ accountId ++ "/order/" ++ orderId,
    query := [], body := some (.obj body.dumpExcludeNone), timeout := 10 }

/-! ## watchlists.py -/

/-- `WatchlistCreateRequest` (watchlists.py): required `name`, optional
`conids` list. -/
structure WatchlistCreateRequest where
  name : String
  conids : Option (List String) := none

/-- `WatchlistCreateRequest.model_dump(exclude_none=True)`. -/
def WatchlistCreateRequest.dumpExcludeNone (r : WatchlistCreateRequest) : Json :=
  .obj ([("name", .str r.name)]
    ++ optDumpField "conids" (fun l => .arr (l.map Json.str)) r.conids)

/-- The outbound request of `create_watchlist`. -/
def create_watchlist_request (accountId : String)
    (body : WatchlistCreateRequest) : OutboundRequest :=
  { method := .post, path := "/iserver/account/" ++ accountId ++ "/watchlist",
    query := [], body := some body.dumpExcludeNone, timeout := 10 }

/-! ## fa_allocation_management.py -/

/-- `AccountAllocation` (fa_allocation_management.py). -/
structure AccountAllocation where
  id : String
  amount : Rat

/-- `AccountAllocation.model_dump()`. -/
def AccountAllocation.dump (a : AccountAllocation) : Json :=
  .obj [("id", .str a.id), ("amount", .num a.amount)]

/-- `FAGroup` (fa_allocation_management.py). -/
structure FAGroup where
  name : String
  method : String
  accounts : List AccountAllocation

/-- `FAGroup.model_dump()`. -/
def FAGroup.dump (g : FAGroup) : Json :=
  .obj [("name", .str g.name), ("method", .str g.method),
        ("accounts", .arr (g.accounts.map AccountAllocation.dump))]

/-- The outbound JSON body of `create_fa_group`:
`json=[body.model_dump()]` — the dumped group wrapped in a one-element
list. -/
def create_fa_group_body (g : FAGroup) : Json := .arr [g.dump]

/-- The outbound request of `create_fa_group`. -/
def create_fa_group_request (g : FAGroup) : OutboundRequest :=
  { method := .post, path := "/fa/groups", query := [],
    body := some (create_fa_group_body g), timeout := 10 }

/-! ## Small observers and concrete inputs used by the theorems -/

/-- Whether a JSON value is the literal `null`. -/
def Json.isNull : Json → Bool
  | .null => true
  | _ => false

/-- The field list of a JSON object (empty for non-objects). -/
def Json.fieldsOf : Json → List (String × Json)
  | .obj fs => fs
  | _ => []

/-- The key a pydantic dump field contributes: `[k]` when set, nothing when
`None`. -/
def optKey {α : Type} (k : String) : Option α → List String
  | none => []
  | some _ => [k]

/-- The order of spec §8: `orderType "LMT"`, `side "BUY"`, `tif "DAY"`,
`quantity 10`, `conid 265598`, every other field left unset (so the
pydantic defaults apply: `None` everywhere except
`outsideRTH = useAdaptive = False`). -/
def exampleOrder : OrderModel :=
  { orderType := "LMT", side := "BUY", tif := "DAY", quantity := 10,
    conid := some 265598 }

/-- An `OrdersRequest` holding just `exampleOrder`. -/
def exampleOrdersRequest : OrdersRequest := { orders := [exampleOrder] }

/-- The FA group of spec §8: name `"MyTestGroup"`, method `"Ratio"`, two
account allocations. -/
def exampleGroup : FAGroup :=
  { name := "MyTestGroup", method := "Ratio",
    accounts := [{ id := "DU123456", amount := 60 },
                 { id := "DU123457", amount := 40 }] }

/-! ## Helper lemmas -/

/-- The keys contributed by one `exclude_none` dump field. -/
theorem optDumpField_keys {α : Type} (k : String) (toJ : α → Json)
    (o : Option α) : (optDumpField k toJ o).map Prod.fst = optKey k o := by
  cases o <;> rfl

/-- A predicate holding on every dumped pair holds on an `exclude_none`
dump field. -/
theorem optDumpField_all {α : Type} (k : String) (toJ : α → Json)
    (p : String × Json → Bool) (h : ∀ v, p (k, toJ v) = true)
    (o : Option α) : (optDumpField k toJ o).all p = true := by
  cases o <;> simp [optDumpField, h]

/-- No field of an `exclude_none` order dump carries the JSON value
`null`: every emitted value is built with `Json.str`, `Json.num`,
`Json.bool` or `Json.obj`. -/
theorem orderDump_no_null (o : OrderModel) :
    (o.dumpExcludeNone).all (fun kv => !kv.2.isNull) = true := by
  unfold OrderModel.dumpExcludeNone
  simp only [List.all_append, Bool.and_eq_true]
  repeat' apply And.intro
  all_goals first
    | exact optDumpField_all _ _ _ (fun _ => rfl) _
    | rfl

/-! ## Claim theorems -/

/-- C1 (counterexample): the snapshot route's response is NOT determined
solely by the second call's outcome.  With a first call that raises a
transport exception (`"Connection refused"`) and a second call that would
succeed with payload `[]`, the handler returns the request-error envelope
of the FIRST call — a different value than it returns when the first call
yields a response and the same second outcome decides — and it issues the
snapshot request only once, so the second call never runs. -/
theorem C1_counterexample :
    get_marketdata_snapshot_result (.transportError "Connection refused")
        (.response 200 "[]" (some (.arr [])))
      ≠ get_marketdata_snapshot_result (.response 200 "[]" (some (.arr [])))
        (.response 200 "[]" (some (.arr [])))
    ∧ get_marketdata_snapshot_result (.transportError "Connection refused")
        (.response 200 "[]" (some (.arr [])))
      = .value (requestErrorEnvelope "Connection refused")
    ∧ get_marketdata_snapshot_requests "265598" "31"
        (.transportError "Connection refused")
      = [snapshotRequest "265598" "31"] := by
  refine ⟨?_, rfl, rfl⟩
  simp [get_marketdata_snapshot_result, forwardCall, requestErrorEnvelope, is2xx]

/-- C1 (amended): the snapshot handler issues the upstream call twice with
identical parameters and ignores the first call's HTTP response entirely —
whatever status or body the first call's response carries, the returned
value is the second call's outcome relayed through the shared
`forwardCall` block.  But if the first call raises a transport exception,
the handler returns the request-error envelope built from that exception
and the second call is never issued. -/
theorem C1_first_response_ignored (s : Nat) (t : String) (jb : Option Json)
    (second : CallResult) (msg conids fields : String) :
    get_marketdata_snapshot_result (.response s t jb) second = forwardCall second
    ∧ get_marketdata_snapshot_result (.transportError msg) second
        = .value (requestErrorEnvelope msg)
    ∧ get_marketdata_snapshot_requests conids fields (.response s t jb)
        = [snapshotRequest conids fields, snapshotRequest conids fields]
    ∧ get_marketdata_snapshot_requests conids fields (.transportError msg)
        = [snapshotRequest conids fields] :=
  ⟨rfl, rfl, rfl, rfl⟩

/-- C2 (counterexample): with an init call that fails with a transport
error, the main HMDS history call does NOT still execute: the handler
returns the init call's request-error envelope instead of the main call's
result, and only the init request is ever issued. -/
theorem C2_counterexample :
    get_hmds_history_result (.transportError "Connection refused")
        (.response 200 "{}" (some (.obj [])))
      ≠ forwardCall (.response 200 "{}" (some (.obj [])))
    ∧ get_hmds_history_result (.transportError "Connection refused")
        (.response 200 "{}" (some (.obj [])))
      = .value (requestErrorEnvelope "Connection refused")
    ∧ get_hmds_history_requests "265598" "1d" none (some false) (some "trades")
        none (.transportError "Connection refused")
      = [hmdsInitRequest] := by
  refine ⟨?_, rfl, rfl⟩
  simp [get_hmds_history_result, forwardCall, requestErrorEnvelope, is2xx]

/-- C2 (amended): the HMDS history handler first issues the fixed
`/hmds/auth/init` call; any HTTP response the init call receives — success
or error status — is ignored and the main history call executes, its
result relayed unchanged through the shared `forwardCall` block.  But if
the init call raises a transport error, the handler returns that error's
request-error envelope and the main history call is never issued. -/
theorem C2_init_response_ignored (s : Nat) (t : String) (jb : Option Json)
    (mainCall : CallResult) (msg conid period : String) (bar : Option String)
    (ors : Option Bool) (barType startTime : Option String) :
    get_hmds_history_result (.response s t jb) mainCall = forwardCall mainCall
    ∧ get_hmds_history_result (.transportError msg) mainCall
        = .value (requestErrorEnvelope msg)
    ∧ get_hmds_history_requests conid period bar ors barType startTime
        (.response s t jb)
      = [hmdsInitRequest,
         hmdsHistoryRequest conid period bar ors barType startTime]
    ∧ get_hmds_history_requests conid period bar ors barType startTime
        (.transportError msg)
      = [hmdsInitRequest] :=
  ⟨rfl, rfl, rfl, rfl⟩

/-- C3 (counterexample): an upstream 401 with body `"unauthorized"` does
not yield the claimed envelope `{"error": "Upstream API Error", ...}` —
the route boundary (the `forwardCall` block every handler repeats) returns
the envelope with error string `"IBKR API Error"` instead. -/
theorem C3_counterexample :
    forwardCall (.response 401 "unauthorized" none)
      ≠ .value (.obj [("error", .str "Upstream API Error"),
                      ("status_code", .num 401),
                      ("detail", .str "unauthorized")])
    ∧ forwardCall (.response 401 "unauthorized" none)
      = .value (.obj [("error", .str "IBKR API Error"),
                      ("status_code", .num 401),
                      ("detail", .str "unauthorized")]) := by
  refine ⟨?_, rfl⟩
  simp [forwardCall, is2xx, apiErrorEnvelope]

/-- C3 (amended): for every route (each handler relays the upstream
outcome through the shared `forwardCall` block), a non-2xx upstream status
makes the handler return — not raise — the envelope
`{"error": "IBKR API Error", "status_code": <the upstream status>,
"detail": <the raw upstream body text>}`; in particular a 401 with body
`"unauthorized"` yields exactly that envelope with status_code 401 and
detail `"unauthorized"`. -/
theorem C3_upstream_error_envelope (status : Nat) (text : String)
    (jb : Option Json) (h : is2xx status = false) :
    forwardCall (.response status text jb)
      = .value (.obj [("error", .str "IBKR API Error"),
                      ("status_code", .num status),
                      ("detail", .str text)]) := by
  simp [forwardCall, h, apiErrorEnvelope]

/-- Witness for C3's amended theorem at status 401, body
`"unauthorized"`. -/
theorem C3_upstream_error_envelope_witness :
    is2xx 401 = false
    ∧ forwardCall (.response 401 "unauthorized" none)
      = .value (.obj [("error", .str "IBKR API Error"),
                      ("status_code", .num 401),
                      ("detail", .str "unauthorized")]) :=
  ⟨rfl, C3_upstream_error_envelope 401 "unauthorized" none rfl⟩

/-- C4 (counterexample): a 2xx upstream response whose body is not valid
JSON is NOT converted to a structured envelope: `response.json()` raises
`json.decoder.JSONDecodeError`, which neither `except` clause catches, so
it escapes the route boundary as an unhandled fault. -/
theorem C4_counterexample :
    forwardCall (.response 200 "<html>Bad Gateway</html>" none)
      = .raised "json.decoder.JSONDecodeError" := rfl

/-- C4 (amended): at the route boundary (the shared `forwardCall` block),
every upstream HTTP error and every transport error is caught and
converted to a returned envelope — the handler returns a value for every
outcome EXCEPT a 2xx upstream response whose body is not valid JSON, in
which case an uncaught `json.decoder.JSONDecodeError` escapes. -/
theorem C4_route_boundary_outcomes (r : CallResult) :
    (∃ v, forwardCall r = .value v)
    ∨ (∃ s t, r = .response s t none ∧ is2xx s = true
        ∧ forwardCall r = .raised "json.decoder.JSONDecodeError") := by
  cases r with
  | transportError msg => exact Or.inl ⟨requestErrorEnvelope msg, rfl⟩
  | response s t jb =>
    by_cases h : is2xx s = true
    · cases jb with
      | some j => exact Or.inl ⟨j, by simp [forwardCall, h]⟩
      | none => exact Or.inr ⟨s, t, rfl, h, by simp [forwardCall, h]⟩
    · exact Or.inl ⟨apiErrorEnvelope s t, by
        rw [Bool.not_eq_true] at h
        simp [forwardCall, h]⟩

/-- C5 (confirmed): a transport failure before any response makes every
route (via the shared `forwardCall` block) return the value
`{"error": "Request Error", "detail": <the failure description>}`; the
envelope's keys are exactly `error` and `detail` — no `status_code` field
— and the detail is the (non-empty) failure description. -/
theorem C5_transport_error_envelope (msg : String) (h : msg ≠ "") :
    forwardCall (.transportError msg) = .value (requestErrorEnvelope msg)
    ∧ (requestErrorEnvelope msg).keys = ["error", "detail"]
    ∧ "status_code" ∉ (requestErrorEnvelope msg).keys
    ∧ (requestErrorEnvelope msg).lookupField "detail" = some (.str msg)
    ∧ msg ≠ "" := by
  refine ⟨rfl, rfl, ?_, rfl, h⟩
  simp [requestErrorEnvelope, Json.keys]

/-- Witness for C5 at the concrete failure description
`"Connection refused"`. -/
theorem C5_transport_error_envelope_witness :
    ("Connection refused" : String) ≠ ""
    ∧ (forwardCall (.transportError "Connection refused")
        = .value (requestErrorEnvelope "Connection refused")
      ∧ (requestErrorEnvelope "Connection refused").keys = ["error", "detail"]
      ∧ "status_code" ∉ (requestErrorEnvelope "Connection refused").keys
      ∧ (requestErrorEnvelope "Connection refused").lookupField "detail"
          = some (.str "Connection refused")
      ∧ ("Connection refused" : String) ≠ "") :=
  ⟨by decide, C5_transport_error_envelope "Connection refused" (by decide)⟩

/-- C6 (counterexample): optional query parameters that carry a declared
default are NOT omitted when unset.  With every optional parameter absent
(so FastAPI supplies the defaults `outsideRth = False`,
`barType = "trades"`, `name = False`, `max = 10`), the history route's
outbound query still contains `barType=trades` and `outsideRth=false`, the
symbol-search route's contains `name=false`, and the notifications route's
contains `max=10`. -/
theorem C6_counterexample :
    ("barType", QVal.s "trades")
        ∈ get_marketdata_history_params "265598" "1d" none none (some false)
            (some "trades")
    ∧ ("outsideRth", QVal.s "false")
        ∈ get_marketdata_history_params "265598" "1d" none none (some false)
            (some "trades")
    ∧ ("name", QVal.s "false")
        ∈ search_contract_by_symbol_or_name_params "IBM" (some false) none
    ∧ ("max", QVal.i 10) ∈ get_notifications_params none none 10 := by
  refine ⟨?_, ?_, ?_, ?_⟩ <;>
    simp [get_marketdata_history_params,
      search_contract_by_symbol_or_name_params, get_notifications_params,
      optStrParam, pyOptBoolStr, pyBoolStr]

/-- C6 (amended): across the query-building routes, every optional query
parameter declared with default `None` is omitted entirely from the
outbound query when unset — the key lists below are exactly the required
keys.  Parameters declared with a non-`None` default are always sent:
with every optional parameter unset, the history routes still send
`outsideRth` (as `"false"`) and `barType` (as `"trades"`), the
symbol-search route still sends `name` (as `"false"`), and the
notifications route still sends `max`. -/
theorem C6_unset_query_params (conid secType symbol conids assetClass
    period monthS : String) (conidN mc : Int) :
    (get_secdef_info_params conid secType none none none none).map Prod.fst
        = ["conid", "secType"]
    ∧ (get_contract_algos_params none none none).map Prod.fst = []
    ∧ (get_strikes_params conidN secType monthS none).map Prod.fst
        = ["conid", "secType", "month"]
    ∧ (get_trading_schedule_params assetClass symbol none none).map Prod.fst
        = ["assetClass", "symbol"]
    ∧ (get_md_snapshot_params conids none).map Prod.fst = ["conids"]
    ∧ (get_positions_params none none none none).map Prod.fst = []
    ∧ (get_marketdata_history_params conid period none none (some false)
          (some "trades")).map Prod.fst
        = ["conid", "period", "outsideRth", "barType"]
    ∧ (get_hmds_history_params conid period none (some false) (some "trades")
          none).map Prod.fst
        = ["conid", "period", "outsideRth", "barType"]
    ∧ (search_contract_by_symbol_or_name_params symbol (some false)
          none).map Prod.fst
        = ["symbol", "name"]
    ∧ (get_notifications_params none none mc).map Prod.fst = ["max"] :=
  ⟨rfl, rfl, rfl, rfl, rfl, rfl, rfl, rfl, rfl, rfl⟩

/-- C9 (confirmed): the `if x:` guards drop optional query parameters by
Python truthiness, so a provided-but-falsy value — `strike = 0.0` on the
secdef-info route, an empty string for `fields`, `exclude`, `include`,
`bar`, `exchange`, `barType`, `startTime`, `model`, `sort`, `direction`,
`period`, `algos` — produces exactly the same outbound query as omitting
the parameter, and therefore can never be forwarded upstream. -/
theorem C9_falsy_optional_params_omitted (conid secType conids period
    symbol : String) (m e r : Option String) (ors : Option Bool) (mc : Int) :
    get_secdef_info_params conid secType m e (some 0) r
        = get_secdef_info_params conid secType m e none r
    ∧ get_md_snapshot_params conids (some "") = get_md_snapshot_params conids none
    ∧ get_notifications_params (some "") (some "") mc
        = get_notifications_params none none mc
    ∧ get_marketdata_history_params conid period (some "") (some "") ors
          (some "")
        = get_marketdata_history_params conid period none none ors none
    ∧ get_hmds_history_params conid period (some "") ors (some "") (some "")
        = get_hmds_history_params conid period none ors none none
    ∧ get_positions_params (some "") (some "") (some "") (some "")
        = get_positions_params none none none none
    ∧ get_contract_algos_params (some "") (some "") (some "")
        = get_contract_algos_params none none none
    ∧ search_contract_by_symbol_or_name_params symbol ors (some "")
        = search_contract_by_symbol_or_name_params symbol ors none := by
  refine ⟨?_, rfl, rfl, rfl, rfl, rfl, rfl, rfl⟩
  simp [get_secdef_info_params, optFloatParam]

/-- C10 (confirmed): the bond-filters route is not a verbatim forward of
its input: for every `issuerId` the outbound query is exactly
`symbol=BOND&issuerId=<issuerId>` — the constant `symbol` entry is always
present with value `"BOND"`, and `issuerId` is the only caller-controlled
entry, so the caller can neither omit nor override `symbol`. -/
theorem C10_bond_filters_adds_symbol (issuerId : String) :
    (get_bond_filters_request issuerId).query.lookup "symbol"
        = some (QVal.s "BOND")
    ∧ (get_bond_filters_request issuerId).query.map Prod.fst
        = ["symbol", "issuerId"]
    ∧ (get_bond_filters_request issuerId).query
        = [("symbol", QVal.s "BOND"), ("issuerId", QVal.s issuerId)] :=
  ⟨rfl, rfl, rfl⟩

/-- C7 (counterexample): the outbound order body does NOT exclude every
optional field that was not set on input.  The §8 example order sets only
`orderType`, `side`, `tif`, `quantity` and `conid`, yet its
`model_dump(exclude_none=True)` still contains `outsideRTH: false` and
`useAdaptive: false` — those fields' pydantic default is `False`, not
`None`, so `exclude_none` keeps them. -/
theorem C7_counterexample :
    ("outsideRTH", Json.bool false) ∈ exampleOrder.dumpExcludeNone
    ∧ ("useAdaptive", Json.bool false) ∈ exampleOrder.dumpExcludeNone := by
  constructor <;>
    simp [exampleOrder, OrderModel.dumpExcludeNone, optDumpField]

/-- C7 (amended): for order placement, order modification and watchlist
creation the outbound body excludes exactly the `None`-valued fields —
the dumped keys are the required keys plus the keys of the set optional
fields — and therefore contains no `null`-valued field; but optional
fields declared with default `False` (`outsideRTH`, `useAdaptive`) are
included as `false` even when unset.  The §8 example order round-trips to
an `orders` list with exactly one object carrying the given fields, no
`null`-valued field, and additionally `outsideRTH: false` and
`useAdaptive: false`. -/
theorem C7_body_excludes_none_fields (o : OrderModel)
    (w : WatchlistCreateRequest) :
    (o.dumpExcludeNone).all (fun kv => !kv.2.isNull) = true
    ∧ (o.dumpExcludeNone).map Prod.fst
        = optKey "acctId" o.acctId ++ optKey "conid" o.conid
          ++ optKey "conidex" o.conidex ++ optKey "secType" o.secType
          ++ optKey "cOID" o.cOID ++ optKey "parentId" o.parentId
          ++ ["orderType"] ++ optKey "listingExchange" o.listingExchange
          ++ optKey "outsideRTH" o.outsideRTH ++ optKey "price" o.price
          ++ optKey "auxPrice" o.auxPrice ++ ["side"]
          ++ optKey "ticker" o.ticker ++ ["tif", "quantity"]
          ++ optKey "useAdaptive" o.useAdaptive
          ++ optKey "strategy" o.strategy
          ++ optKey "strategyParameters" o.strategyParameters
    ∧ ((w.dumpExcludeNone).fieldsOf).all (fun kv => !kv.2.isNull) = true
    ∧ (w.dumpExcludeNone).keys = ["name"] ++ optKey "conids" w.conids
    ∧ OrdersRequest.dumpExcludeNone exampleOrdersRequest
        = Json.obj [("orders", Json.arr [Json.obj
            [("conid", Json.num 265598), ("orderType", Json.str "LMT"),
             ("outsideRTH", Json.bool false), ("side", Json.str "BUY"),
             ("tif", Json.str "DAY"), ("quantity", Json.num 10),
             ("useAdaptive", Json.bool false)]])] := by
  refine ⟨orderDump_no_null o, ?_, ?_, ?_, rfl⟩
  · simp only [OrderModel.dumpExcludeNone, List.map_append, optDumpField_keys,
      List.map_cons, List.map_nil, List.append_assoc]
  · cases hc : w.conids <;>
      simp [WatchlistCreateRequest.dumpExcludeNone, optDumpField,
        Json.fieldsOf, Json.isNull, hc]
  · cases hc : w.conids <;>
      simp [WatchlistCreateRequest.dumpExcludeNone, optDumpField, Json.keys,
        optKey, hc]

/-- C8 (confirmed): the FA-group creation body is always the serialized
group wrapped in a single-element list, never the bare object; the §8
example group (`"MyTestGroup"`, method `"Ratio"`, two account
allocations) is sent as a one-element list containing that group's
object. -/
theorem C8_fa_group_body_single_element_list (g : FAGroup) :
    create_fa_group_body g
      = Json.arr [Json.obj
          [("name", Json.str g.name), ("method", Json.str g.method),
           ("accounts", Json.arr (g.accounts.map AccountAllocation.dump))]]
    ∧ (create_fa_group_request g).body = some (Json.arr [g.dump])
    ∧ create_fa_group_body exampleGroup
      = Json.arr [Json.obj
          [("name", Json.str "MyTestGroup"), ("method", Json.str "Ratio"),
           ("accounts", Json.arr
             [Json.obj [("id", Json.str "DU123456"), ("amount", Json.num 60)],
              Json.obj [("id", Json.str "DU123457"),
                        ("amount", Json.num 40)]])]] :=
  ⟨rfl, rfl, rfl⟩

end IBMCP
